import Mathlib

/-!
Verification of the resource-addressing and schema-tool guard logic of the
mcp-database-server repository, shallowly embedded from the TypeScript
source: `src/tools/schemaTools.ts` (the five schema tools) and the resource
handler module (`handleListResources` / `handleReadResource`).

Modelling conventions:

* The external database layer (`dbAll`, `dbExec`, `getListTablesQuery`,
  `getDescribeTableQuery`, `getDatabaseMetadata`) is passed in as explicit
  parameters: query texts as strings, query results as `Except String`
  values (an `Except.error e` models the underlying promise rejecting with
  an error whose `.message` is `e`).  Each operation returns the pair of
  its own outcome (`Except.error m` models the operation throwing an error
  with message `m`) and the ordered list of calls it issued to the
  external layer, so that "the external call is never made" is the
  statement that the call list is empty.
* JavaScript strings are Lean `String`s; the JS string primitives used by
  the source (`split("/")`, `trim`, `toLowerCase`, `startsWith`) are
  modelled at the character-list level below (ASCII-faithful).
* WHATWG URLs: the source only ever builds URLs in authority form
  `scheme://host/path` and resolves relative path references against
  them.  `Url` records scheme, host, and pathname; `Url.href` is its
  serialization; `resolveRelative` models `new URL(relative, base)` for a
  relative path reference (WHATWG "merge path": the base path minus its
  last segment, followed by the reference's segments).  Query, fragment,
  userinfo and percent-encoding do not occur in the modelled inputs.
* Metadata fields that may be `undefined` in JS are modelled as `""`
  (both are falsy, and only truthiness is tested by the source).
-/

namespace McpDatabase

/-- Model of JavaScript `s.split("/")`: split the character list on `'/'`.
Matches JS semantics: `"".split("/") = [""]`, `"/".split("/") = ["", ""]`. -/
def jsSplit (s : String) : List String :=
  (s.data.splitOn '/').map String.mk

/-- Join segments with `"/"`; the inverse of `jsSplit` used to model how a
WHATWG URL serializes its path segment list back into a pathname. -/
def joinSegs (l : List String) : String :=
  ⟨List.intercalate ['/'] (l.map String.data)⟩

/-- Model of the JS whitespace class trimmed by `String.prototype.trim`
(restricted to the ASCII whitespace characters). -/
def isJsSpace (c : Char) : Bool :=
  c == ' ' || c == '\t' || c == '\n' || c == '\r'

/-- Model of JavaScript `s.trim()`. -/
def jsTrim (s : String) : String :=
  ⟨((s.data.dropWhile isJsSpace).reverse.dropWhile isJsSpace).reverse⟩

/-- Model of JavaScript `s.toLowerCase()` (ASCII case mapping). -/
def jsToLower (s : String) : String :=
  ⟨s.data.map Char.toLower⟩

/-- Model of JavaScript `s.startsWith(pre)`. -/
def jsStartsWith (s pre : String) : Bool :=
  pre.data.isPrefixOf s.data

/-- A call issued to the external database layer: `all q` models
`dbAll(dbId, q)` and `exec q` models `dbExec(dbId, q)`. -/
inductive DbCall where
  | all (query : String)
  | exec (query : String)
  deriving DecidableEq

/-- A row of the table-listing query; the source only reads `row.name`. -/
structure TableRow where
  name : String
  deriving DecidableEq

/-- A row of the describe-table query, with the fields the source reads:
`{name, type, notnull, dflt_value, pk}`.  The 0/1 flags are integers. -/
structure ColumnRow where
  name : String
  type : String
  notnull : Int
  dflt_value : Option String
  pk : Int
  deriving DecidableEq

/-- Database metadata as returned by `getDatabaseMetadata`. -/
structure DbMetadata where
  type : String
  path : String
  server : String
  database : String
  deriving DecidableEq

/-- A WHATWG URL in authority form `scheme://host<pathname>`. -/
structure Url where
  scheme : String
  host : String
  pathname : String
  deriving DecidableEq

/-- Serialization of an authority-form URL (`.href`). -/
def Url.href (u : Url) : String :=
  u.scheme ++ "://" ++ u.host ++ u.pathname

/-- The literal path marker `SCHEMA_PATH = "schema"` of the source. -/
def SCHEMA_PATH : String := "schema"

/-- `new URL(relative, base)` for a relative path reference: scheme and
host come from the base, and the reference's segments replace the last
segment of the base's path (WHATWG merge-path algorithm). -/
def resolveRelative (relative : String) (base : Url) : Url :=
  { base with pathname := joinSegs ((jsSplit base.pathname).dropLast ++ jsSplit relative) }

/-- Base URL selection of `handleListResources`: models the parse of the
three template strings `sqlite:///${path}`, `sqlserver://${server}/${database}`
and `db:///database` (for the middle one, the authority is what precedes
the first `/` of `${server}/${database}`). -/
def resourceBaseUrl (dbInfo : DbMetadata) : Url :=
  if dbInfo.type = "sqlite" ∧ dbInfo.path ≠ "" then
    { scheme := "sqlite", host := "", pathname := "/" ++ dbInfo.path }
  else if dbInfo.type = "sqlserver" ∧ dbInfo.server ≠ "" ∧ dbInfo.database ≠ "" then
    { scheme := "sqlserver"
      host := (jsSplit (dbInfo.server ++ "/" ++ dbInfo.database)).headD ""
      pathname := "/" ++ joinSegs (jsSplit (dbInfo.server ++ "/" ++ dbInfo.database)).tail }
  else
    { scheme := "db", host := "", pathname := "/database" }

/-- A resource descriptor produced by `handleListResources`. -/
structure Resource where
  uri : String
  mimeType : String
  name : String
  deriving DecidableEq

/-- The `{column_name, data_type}` pair exposed by `handleReadResource`. -/
structure SchemaColumn where
  column_name : String
  data_type : String
  deriving DecidableEq

/-- The content payload of `handleReadResource`; `columns` models the
JSON-serialized array placed in the `text` field. -/
structure ResourceContents where
  uri : String
  mimeType : String
  columns : List SchemaColumn
  deriving DecidableEq

/-- `formatSuccessResponse` from `formatUtils`: identity-like wrapping per
the external contract, modelled as the identity. -/
def formatSuccessResponse {α : Type} (payload : α) : α := payload

/-- `handleListResources(dbId)`.  `metadataResult` is the outcome of
`getDatabaseMetadata(dbId)`, `listTablesQuery` the text returned by
`getListTablesQuery(dbId)`, and `listTablesResult` the outcome of
`dbAll(dbId, listTablesQuery)`. -/
def handleListResources (metadataResult : Except String DbMetadata)
    (listTablesQuery : String) (listTablesResult : Except String (List TableRow)) :
    Except String (List Resource) × List DbCall :=
  match metadataResult with
  | .error e => (.error ("Error listing resources: " ++ e), [])
  | .ok dbInfo =>
    let resourceBase := resourceBaseUrl dbInfo
    match listTablesResult with
    | .error e => (.error ("Error listing resources: " ++ e), [DbCall.all listTablesQuery])
    | .ok result =>
      (.ok (result.map fun row =>
        { uri := (resolveRelative (row.name ++ "/" ++ SCHEMA_PATH) resourceBase).href
          mimeType := "application/json"
          name := "\"" ++ row.name ++ "\" database schema" }),
       [DbCall.all listTablesQuery])

/-- `handleReadResource(dbId, uri)`, taking the already-parsed `new URL(uri)`.
`describeQueryFor t` is the text returned by `getDescribeTableQuery(dbId, t)`
(`none` models the `undefined` that two `pop()`s on a one-component path
produce), and `describeResult` the outcome of `dbAll` on that query. -/
def handleReadResource (describeQueryFor : Option String → String)
    (describeResult : Except String (List ColumnRow)) (resourceUrl : Url) :
    Except String ResourceContents × List DbCall :=
  let pathComponents := jsSplit resourceUrl.pathname
  let schema := pathComponents.getLast?
  let tableName := pathComponents.dropLast.getLast?
  if schema ≠ some SCHEMA_PATH then
    (.error ("Error reading resource: " ++ "Invalid resource URI"), [])
  else
    let query := describeQueryFor tableName
    match describeResult with
    | .error e => (.error ("Error reading resource: " ++ e), [DbCall.all query])
    | .ok result =>
      (.ok { uri := resourceUrl.href
             mimeType := "application/json"
             columns := result.map fun column =>
               { column_name := column.name, data_type := column.type } },
       [DbCall.all query])

/-- The `{success, message}` envelope returned by the schema tools. -/
structure Envelope where
  success : Bool
  message : String
  deriving DecidableEq

/-- `createTable(dbId, query)`.  `dbExec` is the external execution call. -/
def createTable (dbExec : String → Except String Unit) (query : String) :
    Except String Envelope × List DbCall :=
  if jsStartsWith (jsToLower (jsTrim query)) "create table" then
    match dbExec query with
    | .ok _ =>
      (.ok (formatSuccessResponse
        { success := true, message := "Table created successfully" }), [DbCall.exec query])
    | .error e => (.error ("SQL Error: " ++ e), [DbCall.exec query])
  else
    (.error ("SQL Error: " ++ "Only CREATE TABLE statements are allowed"), [])

/-- `alterTable(dbId, query)`. -/
def alterTable (dbExec : String → Except String Unit) (query : String) :
    Except String Envelope × List DbCall :=
  if jsStartsWith (jsToLower (jsTrim query)) "alter table" then
    match dbExec query with
    | .ok _ =>
      (.ok (formatSuccessResponse
        { success := true, message := "Table altered successfully" }), [DbCall.exec query])
    | .error e => (.error ("SQL Error: " ++ e), [DbCall.exec query])
  else
    (.error ("SQL Error: " ++ "Only ALTER TABLE statements are allowed"), [])

/-- `dropTable(dbId, tableName, confirm)`.  `listTablesQuery` is the text
returned by `getListTablesQuery(dbId)` and `listTablesResult` the outcome
of `dbAll` on it; `dbExec` is the external execution call. -/
def dropTable (listTablesQuery : String) (listTablesResult : Except String (List TableRow))
    (dbExec : String → Except String Unit) (tableName : String) (confirm : Bool) :
    Except String Envelope × List DbCall :=
  if tableName = "" then
    (.error ("Error dropping table: " ++ "Table name is required"), [])
  else if !confirm then
    (.ok (formatSuccessResponse
      { success := false
        message := "Safety confirmation required. Set confirm=true to proceed with dropping the table." }),
     [])
  else
    match listTablesResult with
    | .error e => (.error ("Error dropping table: " ++ e), [DbCall.all listTablesQuery])
    | .ok tables =>
      if tableName ∈ tables.map TableRow.name then
        match dbExec ("DROP TABLE \"" ++ tableName ++ "\"") with
        | .ok _ =>
          (.ok (formatSuccessResponse
            { success := true
              message := "Table '" ++ tableName ++ "' dropped successfully" }),
           [DbCall.all listTablesQuery, DbCall.exec ("DROP TABLE \"" ++ tableName ++ "\"")])
        | .error e =>
          (.error ("Error dropping table: " ++ e),
           [DbCall.all listTablesQuery, DbCall.exec ("DROP TABLE \"" ++ tableName ++ "\"")])
      else
        (.error ("Error dropping table: " ++ ("Table '" ++ tableName ++ "' does not exist")),
         [DbCall.all listTablesQuery])

/-- `listTables(dbId)`. -/
def listTables (listTablesQuery : String)
    (listTablesResult : Except String (List TableRow)) :
    Except String (List String) × List DbCall :=
  match listTablesResult with
  | .error e => (.error ("Error listing tables: " ++ e), [DbCall.all listTablesQuery])
  | .ok tables =>
    (.ok (formatSuccessResponse (tables.map TableRow.name)), [DbCall.all listTablesQuery])

/-- The normalized column record returned by `describeTable`. -/
structure ColumnInfo where
  name : String
  type : String
  notnull : Bool
  default_value : Option String
  primary_key : Bool
  deriving DecidableEq

/-- `describeTable(dbId, tableName)`.  `describeQueryFor t` is the text
returned by `getDescribeTableQuery(dbId, t)`; `describeResult` is the
outcome of `dbAll` on that query. -/
def describeTable (listTablesQuery : String) (describeQueryFor : String → String)
    (listTablesResult : Except String (List TableRow))
    (describeResult : Except String (List ColumnRow)) (tableName : String) :
    Except String (List ColumnInfo) × List DbCall :=
  if tableName = "" then
    (.error ("Error describing table: " ++ "Table name is required"), [])
  else
    match listTablesResult with
    | .error e => (.error ("Error describing table: " ++ e), [DbCall.all listTablesQuery])
    | .ok tables =>
      if tableName ∈ tables.map TableRow.name then
        match describeResult with
        | .error e =>
          (.error ("Error describing table: " ++ e),
           [DbCall.all listTablesQuery, DbCall.all (describeQueryFor tableName)])
        | .ok columns =>
          (.ok (formatSuccessResponse (columns.map fun col =>
            { name := col.name
              type := col.type
              notnull := col.notnull != (0 : Int)
              default_value := col.dflt_value
              primary_key := col.pk != (0 : Int) })),
           [DbCall.all listTablesQuery, DbCall.all (describeQueryFor tableName)])
      else
        (.error ("Error describing table: " ++ ("Table '" ++ tableName ++ "' does not exist")),
         [DbCall.all listTablesQuery])

theorem joinSegs_jsSplit (s : String) : joinSegs (jsSplit s) = s := by
  simp only [joinSegs, jsSplit, List.map_map]
  have h1 : List.map (String.data ∘ String.mk) (s.data.splitOn '/') = s.data.splitOn '/' :=
    List.map_id _
  rw [h1, List.intercalate_splitOn]

theorem jsSplit_joinSegs (l : List String) (h : l ≠ []) (h2 : ∀ s ∈ l, '/' ∉ s.data) :
    jsSplit (joinSegs l) = l := by
  simp only [jsSplit, joinSegs]
  rw [List.splitOn_intercalate]
  · rw [List.map_map]
    have he : (String.mk ∘ String.data) = id := funext fun s => rfl
    rw [he, List.map_id]
  · intro cs hcs
    simp only [List.mem_map] at hcs
    obtain ⟨s, hs, rfl⟩ := hcs
    exact h2 s hs
  · simpa using h

theorem jsSplit_ne_nil (s : String) : jsSplit s ≠ [] := by
  simp only [jsSplit, ne_eq, List.map_eq_nil_iff]
  exact List.splitOnP_ne_nil _ _

theorem pred_false_of_mem_splitOnP {α : Type} (p : α → Bool) :
    ∀ (xs : List α), ∀ l ∈ xs.splitOnP p, ∀ a ∈ l, p a = false := by
  intro xs
  induction xs with
  | nil =>
    intro l hl a ha
    rw [List.splitOnP_nil] at hl
    simp only [List.mem_singleton] at hl
    subst hl
    cases ha
  | cons x xs ih =>
    intro l hl a ha
    rw [List.splitOnP_cons] at hl
    by_cases hx : p x
    · rw [if_pos hx] at hl
      rcases List.mem_cons.mp hl with rfl | hl
      · cases ha
      · exact ih l hl a ha
    · rw [if_neg hx] at hl
      rcases hsp : xs.splitOnP p with _ | ⟨hd, tl⟩
      · exact absurd hsp (List.splitOnP_ne_nil _ _)
      · rw [hsp, List.modifyHead_cons] at hl
        rcases List.mem_cons.mp hl with rfl | hl
        · rcases List.mem_cons.mp ha with rfl | ha
          · exact Bool.eq_false_iff.mpr hx
          · exact ih hd (hsp ▸ List.mem_cons_self hd tl) a ha
        · exact ih l (hsp ▸ List.mem_cons_of_mem hd hl) a ha

theorem slash_not_mem_of_mem_jsSplit (s seg : String) (h : seg ∈ jsSplit s) :
    '/' ∉ seg.data := by
  intro hmem
  simp only [jsSplit, List.mem_map] at h
  obtain ⟨cs, hcs, rfl⟩ := h
  have := pred_false_of_mem_splitOnP (· == '/') s.data cs hcs '/' hmem
  simp at this

theorem jsSplit_slash_cons (s : String) : jsSplit ("/" ++ s) = "" :: jsSplit s := by
  have hd : ("/" ++ s).data = '/' :: s.data := rfl
  simp only [jsSplit, hd, List.splitOn, List.splitOnP_cons]
  rw [if_pos (by simp)]
  rfl

theorem jsSplit_append_slash (a b : String) (h : '/' ∉ a.data) :
    jsSplit (a ++ "/" ++ b) = a :: jsSplit b := by
  have hd : (a ++ "/" ++ b).data = a.data ++ '/' :: b.data := by
    rw [String.data_append, String.data_append, List.append_assoc]
    rfl
  simp only [jsSplit, hd, List.splitOn]
  rw [List.splitOnP_first _ _ (fun x hx => by simpa using ne_of_mem_of_not_mem hx h) '/'
      (by simp) b.data]
  rfl

theorem jsSplit_eq_single (s : String) (h : '/' ∉ s.data) : jsSplit s = [s] := by
  simp only [jsSplit, List.splitOn]
  rw [List.splitOnP_eq_single _ _ (fun x hx => by simpa using ne_of_mem_of_not_mem hx h)]
  rfl

theorem joinSegs_cons₂ (a b : String) (l : List String) :
    joinSegs (a :: b :: l) = a ++ "/" ++ joinSegs (b :: l) := by
  apply String.ext
  simp only [joinSegs, List.map_cons, String.data_append]
  simp only [List.intercalate, List.intersperse_cons_cons, List.flatten_cons, List.append_assoc]

/-- C3: a query whose trimmed, lowercased text does not start with
`"create table"` (resp. `"alter table"`) makes `createTable` (resp.
`alterTable`) fail with the stated validation message without `dbExec`
ever being invoked; a query that does start with the prefix is passed
verbatim to `dbExec`.  Acceptance depends only on the trimmed,
lowercased text, so surrounding whitespace and letter case of the prefix
cannot affect it. -/
theorem createTable_alterTable_guard (dbExec : String → Except String Unit) (query : String) :
    (jsStartsWith (jsToLower (jsTrim query)) "create table" = false →
      createTable dbExec query =
        (.error "SQL Error: Only CREATE TABLE statements are allowed", [])) ∧
    (jsStartsWith (jsToLower (jsTrim query)) "create table" = true →
      (createTable dbExec query).2 = [DbCall.exec query]) ∧
    (jsStartsWith (jsToLower (jsTrim query)) "alter table" = false →
      alterTable dbExec query =
        (.error "SQL Error: Only ALTER TABLE statements are allowed", [])) ∧
    (jsStartsWith (jsToLower (jsTrim query)) "alter table" = true →
      (alterTable dbExec query).2 = [DbCall.exec query]) := by
  refine ⟨fun h => ?_, fun h => ?_, fun h => ?_, fun h => ?_⟩
  · unfold createTable
    rw [if_neg (by rw [h]; exact Bool.false_ne_true)]
    rfl
  · unfold createTable
    rw [if_pos h]
    cases dbExec query <;> rfl
  · unfold alterTable
    rw [if_neg (by rw [h]; exact Bool.false_ne_true)]
    rfl
  · unfold alterTable
    rw [if_pos h]
    cases dbExec query <;> rfl

/-- C3 witness: a mixed-case, whitespace-padded CREATE TABLE is accepted
and passed verbatim; a SELECT is rejected with no execution call. -/
theorem createTable_alterTable_guard_witness :
    createTable (fun _ => Except.ok ()) "SELECT 1" =
      (.error "SQL Error: Only CREATE TABLE statements are allowed", []) ∧
    (createTable (fun _ => Except.ok ()) "  CrEaTe TABLE t (x int)  ").2 =
      [DbCall.exec "  CrEaTe TABLE t (x int)  "] ∧
    alterTable (fun _ => Except.ok ()) "create table t (x int)" =
      (.error "SQL Error: Only ALTER TABLE statements are allowed", []) ∧
    (alterTable (fun _ => Except.ok ()) "\talter table t add column y int").2 =
      [DbCall.exec "\talter table t add column y int"] :=
  ⟨(createTable_alterTable_guard _ "SELECT 1").1 (by decide),
   (createTable_alterTable_guard _ "  CrEaTe TABLE t (x int)  ").2.1 (by decide),
   (createTable_alterTable_guard _ "create table t (x int)").2.2.1 (by decide),
   (createTable_alterTable_guard _ "\talter table t add column y int").2.2.2 (by decide)⟩

/-- C4: for a non-empty table name, `dropTable` with `confirm = false`
returns (does not throw) the `{success: false}` safety envelope and makes
no call at all to the external database layer. -/
theorem dropTable_unconfirmed_no_calls (listTablesQuery : String)
    (listTablesResult : Except String (List TableRow)) (dbExec : String → Except String Unit)
    (tableName : String) (h : tableName ≠ "") :
    dropTable listTablesQuery listTablesResult dbExec tableName false =
      (.ok { success := false
             message := "Safety confirmation required. Set confirm=true to proceed with dropping the table." },
       []) := by
  unfold dropTable
  rw [if_neg h]
  rfl

/-- C4 witness. -/
theorem dropTable_unconfirmed_no_calls_witness :
    dropTable "LIST" (.ok [{ name := "users" }]) (fun _ => Except.ok ()) "users" false =
      (.ok { success := false
             message := "Safety confirmation required. Set confirm=true to proceed with dropping the table." },
       []) :=
  dropTable_unconfirmed_no_calls "LIST" (.ok [{ name := "users" }]) (fun _ => Except.ok ())
    "users" (by decide)

/-- C5: on a non-empty table name absent from the table listing,
`dropTable` (confirmed) and `describeTable` each fail with a message
containing the table name, and the subsequent operation (the DROP
statement, resp. the describe query) is never issued: the only external
call is the table-listing query. -/
theorem missing_table_failure (listTablesQuery : String) (describeQueryFor : String → String)
    (dbExec : String → Except String Unit) (describeResult : Except String (List ColumnRow))
    (tables : List TableRow) (tableName : String) (hne : tableName ≠ "")
    (habs : tableName ∉ tables.map TableRow.name) :
    dropTable listTablesQuery (.ok tables) dbExec tableName true =
      (.error ("Error dropping table: Table '" ++ tableName ++ "' does not exist"),
       [DbCall.all listTablesQuery]) ∧
    describeTable listTablesQuery describeQueryFor (.ok tables) describeResult tableName =
      (.error ("Error describing table: Table '" ++ tableName ++ "' does not exist"),
       [DbCall.all listTablesQuery]) := by
  constructor
  · unfold dropTable
    rw [if_neg hne]
    show (if tableName ∈ tables.map TableRow.name then _ else _) = _
    rw [if_neg habs]
    rfl
  · unfold describeTable
    rw [if_neg hne]
    show (if tableName ∈ tables.map TableRow.name then _ else _) = _
    rw [if_neg habs]
    rfl

/-- C5 witness. -/
theorem missing_table_failure_witness :
    dropTable "LIST" (.ok [{ name := "users" }]) (fun _ => Except.ok ()) "orders" true =
      (.error "Error dropping table: Table 'orders' does not exist", [DbCall.all "LIST"]) ∧
    describeTable "LIST" (fun t => "DESCRIBE " ++ t) (.ok [{ name := "users" }])
        (.ok []) "orders" =
      (.error "Error describing table: Table 'orders' does not exist", [DbCall.all "LIST"]) :=
  missing_table_failure "LIST" (fun t => "DESCRIBE " ++ t) (fun _ => Except.ok ()) (.ok [])
    [{ name := "users" }] "orders" (by decide) (by decide)

/-- C7: for an existing table, `describeTable` maps each underlying column
row `{name, type, notnull, dflt_value, pk}` in order to the normalized
record `{name, type, notnull, default_value, primary_key}`, coercing the
numeric flags by truthiness and passing `dflt_value` through. -/
theorem describeTable_normalization (listTablesQuery : String)
    (describeQueryFor : String → String) (tables : List TableRow)
    (columns : List ColumnRow) (tableName : String)
    (hne : tableName ≠ "") (hmem : tableName ∈ tables.map TableRow.name) :
    describeTable listTablesQuery describeQueryFor (.ok tables) (.ok columns) tableName =
      (.ok (columns.map fun col =>
        { name := col.name
          type := col.type
          notnull := col.notnull != (0 : Int)
          default_value := col.dflt_value
          primary_key := col.pk != (0 : Int) }),
       [DbCall.all listTablesQuery, DbCall.all (describeQueryFor tableName)]) := by
  unfold describeTable
  rw [if_neg hne]
  show (if tableName ∈ tables.map TableRow.name then _ else _) = _
  rw [if_pos hmem]
  rfl

/-- C7 witness: the underlying row
`{name: "id", type: "INTEGER", notnull: 1, dflt_value: null, pk: 1}`
is normalized to
`{name: "id", type: "INTEGER", notnull: true, default_value: null, primary_key: true}`. -/
theorem describeTable_normalization_witness :
    describeTable "LIST" (fun t => "DESCRIBE " ++ t) (.ok [{ name := "users" }])
        (.ok [{ name := "id", type := "INTEGER", notnull := 1, dflt_value := none, pk := 1 }])
        "users" =
      (.ok [{ name := "id", type := "INTEGER", notnull := true, default_value := none,
              primary_key := true }],
       [DbCall.all "LIST", DbCall.all "DESCRIBE users"]) :=
  describeTable_normalization "LIST" (fun t => "DESCRIBE " ++ t) [{ name := "users" }]
    [{ name := "id", type := "INTEGER", notnull := 1, dflt_value := none, pk := 1 }]
    "users" (by decide) (by decide)

/-- C10: the table-name precondition of `dropTable` takes precedence over
the safety gate — with an empty table name, `dropTable` throws
"Error dropping table: Table name is required" for every value of
`confirm` (including `false`), instead of returning the safety envelope,
and no external call is made. -/
theorem dropTable_empty_name_error (listTablesQuery : String)
    (listTablesResult : Except String (List TableRow)) (dbExec : String → Except String Unit)
    (confirm : Bool) :
    dropTable listTablesQuery listTablesResult dbExec "" confirm =
      (.error "Error dropping table: Table name is required", []) := by
  unfold dropTable
  rw [if_pos rfl]
  rfl

/-- C8: every operation (the five tools and the two resource handlers)
wraps any underlying failure of the external database layer — metadata
lookup, list query, describe query, or statement execution, modelled as
the corresponding oracle returning `Except.error e` — in a new error
whose message is the operation's fixed prefix followed by the original
message `e` as a suffix. -/
theorem error_message_wrapping (e : String) (createQuery alterQuery : String)
    (listTablesQuery : String) (describeQueryFor : String → String)
    (describeQueryForRead : Option String → String) (tableName : String)
    (tables : List TableRow) (dbInfo : DbMetadata) (resourceUrl : Url) :
    (jsStartsWith (jsToLower (jsTrim createQuery)) "create table" = true →
      (createTable (fun _ => .error e) createQuery).1 = .error ("SQL Error: " ++ e)) ∧
    (jsStartsWith (jsToLower (jsTrim alterQuery)) "alter table" = true →
      (alterTable (fun _ => .error e) alterQuery).1 = .error ("SQL Error: " ++ e)) ∧
    (tableName ≠ "" →
      (dropTable listTablesQuery (.error e) (fun _ => .ok ()) tableName true).1 =
        .error ("Error dropping table: " ++ e)) ∧
    (tableName ≠ "" → tableName ∈ tables.map TableRow.name →
      (dropTable listTablesQuery (.ok tables) (fun _ => .error e) tableName true).1 =
        .error ("Error dropping table: " ++ e)) ∧
    ((listTables listTablesQuery (.error e)).1 = .error ("Error listing tables: " ++ e)) ∧
    (tableName ≠ "" →
      (describeTable listTablesQuery describeQueryFor (.error e) (.ok []) tableName).1 =
        .error ("Error describing table: " ++ e)) ∧
    (tableName ≠ "" → tableName ∈ tables.map TableRow.name →
      (describeTable listTablesQuery describeQueryFor (.ok tables) (.error e) tableName).1 =
        .error ("Error describing table: " ++ e)) ∧
    ((handleListResources (.error e) listTablesQuery (.ok [])).1 =
      .error ("Error listing resources: " ++ e)) ∧
    ((handleListResources (.ok dbInfo) listTablesQuery (.error e)).1 =
      .error ("Error listing resources: " ++ e)) ∧
    ((jsSplit resourceUrl.pathname).getLast? = some SCHEMA_PATH →
      (handleReadResource describeQueryForRead (.error e) resourceUrl).1 =
        .error ("Error reading resource: " ++ e)) := by
  refine ⟨fun h => ?_, fun h => ?_, fun h => ?_, fun h hm => ?_, ?_, fun h => ?_,
    fun h hm => ?_, ?_, ?_, fun h => ?_⟩
  · unfold createTable
    rw [if_pos h]
  · unfold alterTable
    rw [if_pos h]
  · simp [dropTable, h]
  · simp [dropTable, h, hm]
  · rfl
  · simp [describeTable, h]
  · simp [describeTable, h, hm]
  · rfl
  · rfl
  · simp [handleReadResource, h]

/-- C8 witness: each wrap site applied at a concrete underlying failure
message `"boom"`. -/
theorem error_message_wrapping_witness :
    (createTable (fun _ => .error "boom") "create table t (x)").1 = .error "SQL Error: boom" ∧
    (alterTable (fun _ => .error "boom") "alter table t add y").1 = .error "SQL Error: boom" ∧
    (dropTable "LIST" (.error "boom") (fun _ => .ok ()) "users" true).1 =
      .error "Error dropping table: boom" ∧
    (dropTable "LIST" (.ok [{ name := "users" }]) (fun _ => .error "boom") "users" true).1 =
      .error "Error dropping table: boom" ∧
    (listTables "LIST" (.error "boom")).1 = .error "Error listing tables: boom" ∧
    (describeTable "LIST" (fun t => "DESCRIBE " ++ t) (.error "boom") (.ok []) "users").1 =
      .error "Error describing table: boom" ∧
    (describeTable "LIST" (fun t => "DESCRIBE " ++ t) (.ok [{ name := "users" }])
        (.error "boom") "users").1 =
      .error "Error describing table: boom" ∧
    (handleListResources (.error "boom") "LIST" (.ok [])).1 =
      .error "Error listing resources: boom" ∧
    (handleListResources (.ok { type := "sqlite", path := "db.sqlite", server := "", database := "" })
        "LIST" (.error "boom")).1 =
      .error "Error listing resources: boom" ∧
    (handleReadResource (fun _ => "D") (.error "boom")
        { scheme := "db", host := "", pathname := "/users/schema" }).1 =
      .error "Error reading resource: boom" := by
  have T := error_message_wrapping "boom" "create table t (x)" "alter table t add y" "LIST"
    (fun t => "DESCRIBE " ++ t) (fun _ => "D") "users" [{ name := "users" }]
    { type := "sqlite", path := "db.sqlite", server := "", database := "" }
    { scheme := "db", host := "", pathname := "/users/schema" }
  exact ⟨T.1 (by decide), T.2.1 (by decide), T.2.2.1 (by decide),
    T.2.2.2.1 (by decide) (by decide), T.2.2.2.2.1, T.2.2.2.2.2.1 (by decide),
    T.2.2.2.2.2.2.1 (by decide) (by decide), T.2.2.2.2.2.2.2.1,
    T.2.2.2.2.2.2.2.2.1, T.2.2.2.2.2.2.2.2.2 (by decide)⟩

theorem jsSplit_resolve_users (base : Url) :
    jsSplit (resolveRelative ("users" ++ "/" ++ SCHEMA_PATH) base).pathname =
      (jsSplit base.pathname).dropLast ++ ["users", "schema"] := by
  unfold resolveRelative
  dsimp only
  have h2 : jsSplit ("users" ++ "/" ++ SCHEMA_PATH) = ["users", "schema"] := by decide
  rw [h2]
  apply jsSplit_joinSegs
  · simp
  · intro s hs
    rcases List.mem_append.mp hs with h | h
    · exact slash_not_mem_of_mem_jsSplit _ s (List.mem_of_mem_dropLast h)
    · simp only [List.mem_cons, List.mem_singleton] at h
      rcases h with rfl | rfl | h
      · decide
      · decide
      · cases h

/-- C1 counterexample: the claim states that a URI whose path consists
only of the literal segment `"schema"` with no table segment before it
(such as `db:///schema`, whose pathname is `/schema`) is rejected as an
invalid resource URI.  The code accepts it: only the last split component
is checked against `"schema"`, the component contributed by the leading
slash (the empty string) is taken as the table name, and the describe
query is issued. -/
theorem readResource_schema_only_path_accepted :
    handleReadResource (fun t => "DESCRIBE " ++ t.getD "undefined") (.ok [])
        { scheme := "db", host := "", pathname := "/schema" } =
      (.ok { uri := "db:///schema", mimeType := "application/json", columns := [] },
       [DbCall.all "DESCRIBE "]) := by
  rfl

/-- C1 amended: `handleReadResource` fails with the invalid-resource-URI
error, before any external query, exactly when the last component of the
split pathname differs from `"schema"`; when the last component is
`"schema"`, the preceding split component (possibly the empty string, as
for pathname `/schema`) is taken as the table name and the describe query
is issued for it. -/
theorem readResource_last_component_guard (describeQueryFor : Option String → String)
    (describeResult : Except String (List ColumnRow)) (resourceUrl : Url) :
    ((jsSplit resourceUrl.pathname).getLast? ≠ some SCHEMA_PATH →
      handleReadResource describeQueryFor describeResult resourceUrl =
        (.error "Error reading resource: Invalid resource URI", [])) ∧
    ((jsSplit resourceUrl.pathname).getLast? = some SCHEMA_PATH →
      (handleReadResource describeQueryFor describeResult resourceUrl).2 =
        [DbCall.all (describeQueryFor ((jsSplit resourceUrl.pathname).dropLast.getLast?))]) := by
  constructor
  · intro h
    simp only [handleReadResource]
    rw [if_pos h]
    rfl
  · intro h
    simp only [handleReadResource]
    rw [if_neg (by rw [h]; simp)]
    cases describeResult <;> rfl

/-- C1 amended witness: a pathname not ending in `schema` is rejected with
no external call; `/users/schema` is accepted and the describe query for
`users` is issued. -/
theorem readResource_last_component_guard_witness :
    handleReadResource (fun _ => "D") (.ok [])
        { scheme := "db", host := "", pathname := "/users/other" } =
      (.error "Error reading resource: Invalid resource URI", []) ∧
    (handleReadResource (fun t => "DESCRIBE " ++ t.getD "undefined") (.ok [])
        { scheme := "db", host := "", pathname := "/users/schema" }).2 =
      [DbCall.all "DESCRIBE users"] :=
  ⟨(readResource_last_component_guard (fun _ => "D") (.ok [])
      { scheme := "db", host := "", pathname := "/users/other" }).1 (by decide),
   (readResource_last_component_guard (fun t => "DESCRIBE " ++ t.getD "undefined") (.ok [])
      { scheme := "db", host := "", pathname := "/users/schema" }).2 (by decide)⟩

/-- C2: for any metadata and any table listing containing a table named
`"users"`, `handleListResources` produces for it a resource whose URI is
the resolution of `users/schema` against the metadata's base URL; that
URL passes `handleReadResource`'s shape check (its last split component
is `"schema"`), and `handleReadResource` extracts exactly the table name
`"users"` and passes it to the describe-table query. -/
theorem listResources_readResource_roundtrip (dbInfo : DbMetadata) (listTablesQuery : String)
    (rows : List TableRow) (row : TableRow) (hrow : row ∈ rows) (hname : row.name = "users")
    (describeQueryFor : Option String → String)
    (describeResult : Except String (List ColumnRow)) :
    ({ uri := (resolveRelative ("users" ++ "/" ++ SCHEMA_PATH) (resourceBaseUrl dbInfo)).href,
       mimeType := "application/json",
       name := "\"users\" database schema" } : Resource) ∈
      ((handleListResources (.ok dbInfo) listTablesQuery (.ok rows)).1.toOption.getD []) ∧
    (jsSplit (resolveRelative ("users" ++ "/" ++ SCHEMA_PATH)
        (resourceBaseUrl dbInfo)).pathname).getLast? = some SCHEMA_PATH ∧
    (handleReadResource describeQueryFor describeResult
        (resolveRelative ("users" ++ "/" ++ SCHEMA_PATH) (resourceBaseUrl dbInfo))).2 =
      [DbCall.all (describeQueryFor (some "users"))] := by
  have hsplit := jsSplit_resolve_users (resourceBaseUrl dbInfo)
  have hlast : (jsSplit (resolveRelative ("users" ++ "/" ++ SCHEMA_PATH)
      (resourceBaseUrl dbInfo)).pathname).getLast? = some "schema" := by
    rw [hsplit, show (jsSplit (resourceBaseUrl dbInfo).pathname).dropLast ++ ["users", "schema"] =
      ((jsSplit (resourceBaseUrl dbInfo).pathname).dropLast ++ ["users"]) ++ ["schema"] from by
        rw [List.append_assoc]; rfl]
    exact List.getLast?_concat _
  refine ⟨?_, hlast, ?_⟩
  · have hr : ({ uri := (resolveRelative ("users" ++ "/" ++ SCHEMA_PATH) (resourceBaseUrl dbInfo)).href,
                 mimeType := "application/json",
                 name := "\"users\" database schema" } : Resource) =
        { uri := (resolveRelative (row.name ++ "/" ++ SCHEMA_PATH) (resourceBaseUrl dbInfo)).href,
          mimeType := "application/json",
          name := "\"" ++ row.name ++ "\" database schema" } := by
      rw [hname]
      rfl
    rw [hr]
    exact List.mem_map_of_mem _ hrow
  · have hprev : (jsSplit (resolveRelative ("users" ++ "/" ++ SCHEMA_PATH)
        (resourceBaseUrl dbInfo)).pathname).dropLast.getLast? = some "users" := by
      rw [hsplit, show (jsSplit (resourceBaseUrl dbInfo).pathname).dropLast ++ ["users", "schema"] =
        ((jsSplit (resourceBaseUrl dbInfo).pathname).dropLast ++ ["users"]) ++ ["schema"] from by
          rw [List.append_assoc]; rfl]
      rw [List.dropLast_concat]
      exact List.getLast?_concat _
    simp only [handleReadResource]
    rw [if_neg (by rw [hlast]; simp [SCHEMA_PATH])]
    rw [hprev]
    cases describeResult <;> rfl

/-- C2 witness: with sqlite metadata for `mydb.db` and a listing
containing `users`, the produced URI is `sqlite:///users/schema` and it
round-trips through `handleReadResource`. -/
theorem listResources_readResource_roundtrip_witness :
    ({ uri := "sqlite:///users/schema",
       mimeType := "application/json",
       name := "\"users\" database schema" } : Resource) ∈
      ((handleListResources
        (.ok { type := "sqlite", path := "mydb.db", server := "", database := "" })
        "LIST" (.ok [{ name := "users" }])).1.toOption.getD []) ∧
    (jsSplit (resolveRelative ("users" ++ "/" ++ SCHEMA_PATH)
      (resourceBaseUrl
        { type := "sqlite", path := "mydb.db", server := "", database := "" })).pathname).getLast?
      = some SCHEMA_PATH ∧
    (handleReadResource (fun t => "DESCRIBE " ++ t.getD "undefined") (.ok [])
        (resolveRelative ("users" ++ "/" ++ SCHEMA_PATH)
          (resourceBaseUrl
            { type := "sqlite", path := "mydb.db", server := "", database := "" }))).2 =
      [DbCall.all "DESCRIBE users"] := by
  have T := listResources_readResource_roundtrip
    { type := "sqlite", path := "mydb.db", server := "", database := "" } "LIST"
    [{ name := "users" }] { name := "users" } (by decide) (by decide)
    (fun t => "DESCRIBE " ++ t.getD "undefined") (.ok [])
  exact ⟨T.1, T.2.1, T.2.2⟩

theorem data_append_slash (a b : String) : (a ++ "/" ++ b).data = a.data ++ '/' :: b.data := by
  rw [String.data_append, String.data_append, List.append_assoc]
  rfl

theorem joinSegs_singleton (s : String) : joinSegs [s] = s := by
  apply String.ext
  simp [joinSegs, List.intercalate]

theorem headD_join_tail (a b : String) :
    (jsSplit (a ++ "/" ++ b)).headD "" ++ ("/" ++ joinSegs (jsSplit (a ++ "/" ++ b)).tail) =
      a ++ "/" ++ b := by
  rcases hsegs : jsSplit (a ++ "/" ++ b) with _ | ⟨h1, t⟩
  · exact absurd hsegs (jsSplit_ne_nil _)
  · rcases t with _ | ⟨h2, t2⟩
    · exfalso
      have hj := joinSegs_jsSplit (a ++ "/" ++ b)
      rw [hsegs, joinSegs_singleton] at hj
      have hns := slash_not_mem_of_mem_jsSplit (a ++ "/" ++ b) h1
        (by rw [hsegs]; exact List.mem_singleton_self h1)
      rw [hj, data_append_slash] at hns
      exact hns (List.mem_append_right _ (List.mem_cons_self _ _))
    · have hj := joinSegs_jsSplit (a ++ "/" ++ b)
      rw [hsegs, joinSegs_cons₂] at hj
      simp only [List.headD_cons, List.tail_cons]
      rw [← hj, String.append_assoc]

/-- C6: base-URI selection and descriptor shape of `handleListResources`:
metadata matching neither the file-based shape (`sqlite` with a non-empty
path) nor the client-server shape (`sqlserver` with non-empty server and
database) falls back to the generic `db:///database` base and the handler
does not fail on account of the metadata type; matching metadata yields
the `sqlite:///<path>` resp. `sqlserver://<server>/<database>` base; and
every returned descriptor has mimeType `application/json` and name
`"<table>" database schema`. -/
theorem listResources_base_and_descriptors (dbInfo : DbMetadata) (listTablesQuery : String)
    (rows : List TableRow) :
    (¬(dbInfo.type = "sqlite" ∧ dbInfo.path ≠ "") →
      ¬(dbInfo.type = "sqlserver" ∧ dbInfo.server ≠ "" ∧ dbInfo.database ≠ "") →
      resourceBaseUrl dbInfo = { scheme := "db", host := "", pathname := "/database" } ∧
      ∃ resources,
        (handleListResources (.ok dbInfo) listTablesQuery (.ok rows)).1 = .ok resources) ∧
    (dbInfo.type = "sqlite" → dbInfo.path ≠ "" →
      (resourceBaseUrl dbInfo).href = "sqlite:///" ++ dbInfo.path) ∧
    (dbInfo.type = "sqlserver" → dbInfo.server ≠ "" → dbInfo.database ≠ "" →
      (resourceBaseUrl dbInfo).href = "sqlserver://" ++ dbInfo.server ++ "/" ++ dbInfo.database) ∧
    (∀ res ∈ (handleListResources (.ok dbInfo) listTablesQuery (.ok rows)).1.toOption.getD [],
      res.mimeType = "application/json" ∧
      ∃ row ∈ rows, res.name = "\"" ++ row.name ++ "\" database schema") := by
  refine ⟨fun h1 h2 => ?_, fun hty hpath => ?_, fun hty hs hd => ?_, fun res hres => ?_⟩
  · constructor
    · unfold resourceBaseUrl
      rw [if_neg h1, if_neg h2]
    · exact ⟨_, rfl⟩
  · unfold resourceBaseUrl
    rw [if_pos ⟨hty, hpath⟩]
    rfl
  · unfold resourceBaseUrl
    rw [if_neg (by rintro ⟨h, -⟩; rw [hty] at h; exact absurd h (by decide)),
      if_pos ⟨hty, hs, hd⟩]
    unfold Url.href
    dsimp only
    rw [String.append_assoc, headD_join_tail]
    rfl
  · have hlist : (handleListResources (.ok dbInfo) listTablesQuery (.ok rows)).1.toOption.getD [] =
        rows.map (fun row =>
          ({ uri := (resolveRelative (row.name ++ "/" ++ SCHEMA_PATH) (resourceBaseUrl dbInfo)).href,
             mimeType := "application/json",
             name := "\"" ++ row.name ++ "\" database schema" } : Resource)) := rfl
    rw [hlist, List.mem_map] at hres
    obtain ⟨row, hrow, rfl⟩ := hres
    exact ⟨rfl, row, hrow, rfl⟩

/-- C6 witness: the fallback, sqlite, and sqlserver bases, and the
descriptor shape, each at a concrete instance. -/
theorem listResources_base_and_descriptors_witness :
    (resourceBaseUrl { type := "postgres", path := "", server := "", database := "" } =
        { scheme := "db", host := "", pathname := "/database" } ∧
      ∃ resources,
        (handleListResources
          (.ok { type := "postgres", path := "", server := "", database := "" })
          "LIST" (.ok [{ name := "users" }])).1 = .ok resources) ∧
    (resourceBaseUrl { type := "sqlite", path := "mydb.db", server := "", database := "" }).href =
      "sqlite:///mydb.db" ∧
    (resourceBaseUrl { type := "sqlserver", path := "", server := "srv", database := "mydb" }).href =
      "sqlserver://srv/mydb" ∧
    (({ uri := "db:///users/schema",
        mimeType := "application/json",
        name := "\"users\" database schema" } : Resource).mimeType = "application/json" ∧
      ∃ row ∈ [({ name := "users" } : TableRow)],
        ({ uri := "db:///users/schema",
           mimeType := "application/json",
           name := "\"users\" database schema" } : Resource).name =
          "\"" ++ row.name ++ "\" database schema") := by
  refine ⟨?_, ?_, ?_, ?_⟩
  · exact (listResources_base_and_descriptors
      { type := "postgres", path := "", server := "", database := "" } "LIST"
      [{ name := "users" }]).1 (by decide) (by decide)
  · exact (listResources_base_and_descriptors
      { type := "sqlite", path := "mydb.db", server := "", database := "" } "LIST" []).2.1
      (by decide) (by decide)
  · exact (listResources_base_and_descriptors
      { type := "sqlserver", path := "", server := "srv", database := "mydb" } "LIST" []).2.2.1
      (by decide) (by decide) (by decide)
  · exact (listResources_base_and_descriptors
      { type := "postgres", path := "", server := "", database := "" } "LIST"
      [{ name := "users" }]).2.2.2
      { uri := "db:///users/schema",
        mimeType := "application/json",
        name := "\"users\" database schema" } (by decide)

/-- C9: because `<table>/schema` is resolved as a relative URL, the base
URL's final path segment never appears in the produced URI: for
segment-free metadata values, sqlite metadata with path `p` yields
`sqlite:///<table>/schema` (not `sqlite:///p/<table>/schema`), sqlserver
metadata yields `sqlserver://<server>/<table>/schema` (the database name
is dropped), and any non-matching metadata yields `db:///<table>/schema`. -/
theorem resolve_drops_base_last_segment (p server database t : String)
    (hp : p ≠ "") (hps : '/' ∉ p.data) (hs : server ≠ "") (hss : '/' ∉ server.data)
    (hd : database ≠ "") (hds : '/' ∉ database.data) (hts : '/' ∉ t.data)
    (dbInfo : DbMetadata)
    (hgen1 : ¬(dbInfo.type = "sqlite" ∧ dbInfo.path ≠ ""))
    (hgen2 : ¬(dbInfo.type = "sqlserver" ∧ dbInfo.server ≠ "" ∧ dbInfo.database ≠ "")) :
    (resolveRelative (t ++ "/" ++ SCHEMA_PATH)
        (resourceBaseUrl { type := "sqlite", path := p, server := "", database := "" })).href =
      "sqlite:///" ++ t ++ "/schema" ∧
    (resolveRelative (t ++ "/" ++ SCHEMA_PATH)
        (resourceBaseUrl
          { type := "sqlserver", path := "", server := server, database := database })).href =
      "sqlserver://" ++ server ++ "/" ++ t ++ "/schema" ∧
    (resolveRelative (t ++ "/" ++ SCHEMA_PATH) (resourceBaseUrl dbInfo)).href =
      "db:///" ++ t ++ "/schema" := by
  have hrel : jsSplit (t ++ "/" ++ SCHEMA_PATH) = [t, "schema"] := by
    rw [jsSplit_append_slash t SCHEMA_PATH hts]
    rfl
  refine ⟨?_, ?_, ?_⟩
  · rw [show resourceBaseUrl { type := "sqlite", path := p, server := "", database := "" } =
        { scheme := "sqlite", host := "", pathname := "/" ++ p } from by
      unfold resourceBaseUrl; rw [if_pos ⟨rfl, hp⟩]]
    unfold resolveRelative Url.href
    dsimp only
    rw [jsSplit_slash_cons, jsSplit_eq_single p hps, hrel]
    rw [show (["", p] : List String).dropLast ++ [t, "schema"] = ["", t, "schema"] from rfl]
    rw [joinSegs_cons₂, joinSegs_cons₂, joinSegs_singleton]
    simp only [String.append_assoc]
    rfl
  · have hfull : jsSplit (server ++ "/" ++ database) = [server, database] := by
      rw [jsSplit_append_slash server database hss, jsSplit_eq_single database hds]
    rw [show resourceBaseUrl
          { type := "sqlserver", path := "", server := server, database := database } =
        { scheme := "sqlserver", host := server, pathname := "/" ++ database } from by
      unfold resourceBaseUrl
      rw [if_neg (by rintro ⟨h, -⟩; exact (by decide : ("sqlserver" : String) ≠ "sqlite") h),
        if_pos ⟨rfl, hs, hd⟩, hfull]
      rw [show ([server, database] : List String).headD "" = server from rfl,
        show ([server, database] : List String).tail = [database] from rfl, joinSegs_singleton]]
    unfold resolveRelative Url.href
    dsimp only
    rw [jsSplit_slash_cons, jsSplit_eq_single database hds, hrel]
    rw [show (["", database] : List String).dropLast ++ [t, "schema"] = ["", t, "schema"] from rfl]
    rw [joinSegs_cons₂, joinSegs_cons₂, joinSegs_singleton]
    simp only [String.append_assoc]
    rfl
  · rw [show resourceBaseUrl dbInfo = { scheme := "db", host := "", pathname := "/database" } from by
      unfold resourceBaseUrl; rw [if_neg hgen1, if_neg hgen2]]
    unfold resolveRelative Url.href
    dsimp only
    rw [hrel]
    rw [show (jsSplit "/database").dropLast ++ [t, "schema"] = ["", t, "schema"] from rfl]
    rw [joinSegs_cons₂, joinSegs_cons₂, joinSegs_singleton]
    simp only [String.append_assoc]
    rfl

/-- C9 witness: the three produced URIs at concrete metadata and table
`users`. -/
theorem resolve_drops_base_last_segment_witness :
    (resolveRelative ("users" ++ "/" ++ SCHEMA_PATH)
        (resourceBaseUrl
          { type := "sqlite", path := "mydb.db", server := "", database := "" })).href =
      "sqlite:///users/schema" ∧
    (resolveRelative ("users" ++ "/" ++ SCHEMA_PATH)
        (resourceBaseUrl
          { type := "sqlserver", path := "", server := "srv", database := "mydb" })).href =
      "sqlserver://srv/users/schema" ∧
    (resolveRelative ("users" ++ "/" ++ SCHEMA_PATH)
        (resourceBaseUrl
          { type := "postgres", path := "", server := "", database := "" })).href =
      "db:///users/schema" := by
  have T := resolve_drops_base_last_segment "mydb.db" "srv" "mydb" "users"
    (by decide) (by decide) (by decide) (by decide) (by decide) (by decide) (by decide)
    { type := "postgres", path := "", server := "", database := "" } (by decide) (by decide)
  exact ⟨T.1, T.2.1, T.2.2⟩

end McpDatabase
